import Mathlib

/-!
Shallow embedding of the OpenInvoice frontend core
(`src/frontend/src/api/mock.ts` and `src/frontend/src/stores/cartStore.ts`).

JavaScript numbers are modelled as exact rationals (`ℚ`); every arithmetic
operation appearing in the source (`+`, `*`, `/ 100`, `Math.round`) is exact
on the inputs used below, so no floating-point rounding is relevant to the
statements proved here.  Strings are Lean `String`s; `split('|')`,
`slice(0, 8)` and `padStart(4, '0')` are re-implemented structurally so that
closed instances evaluate inside the kernel.  The `async`/`delay` wrappers,
the constant `qr_image` sprite and console logging are dropped: they carry
no data flow into any verified result.
-/

/-- JavaScript `Math.round`: rounds half toward positive infinity. -/
def jsRound (q : ℚ) : ℤ := Int.floor (q + 1/2)

/-- The source pattern `Math.round(x * 100) / 100`: round to 2 decimals. -/
def round2 (q : ℚ) : ℚ := (jsRound (q * 100) : ℚ) / 100

/-- Splitting a character list at a separator, JS `String.split` semantics
for a one-character separator (an empty input yields one empty field). -/
def splitChar (sep : Char) : List Char → List (List Char)
  | [] => [[]]
  | c :: cs =>
    if c = sep then [] :: splitChar sep cs
    else
      match splitChar sep cs with
      | [] => [[c]]
      | g :: gs => (c :: g) :: gs

/-- JS `s.split(sep)` for a one-character separator. -/
def jsSplit (s : String) (sep : Char) : List String :=
  (splitChar sep s.toList).map String.mk

/-- JS `s.slice(0, n)`. -/
def jsTake (s : String) (n : ℕ) : String := String.mk (s.toList.take n)

/-- JS `s.padStart(n, c)`. -/
def jsPadStart (s : String) (n : ℕ) (c : Char) : String :=
  if n ≤ s.length then s
  else String.mk (List.replicate (n - s.length) c) ++ s

/-- JS `n.toString(16)` for a natural number (lowercase hex digits). -/
def hexString (n : ℕ) : String := String.mk (Nat.toDigits 16 n)

/-- JS `q.toFixed(2)` for the non-negative totals produced by the mock
(two fraction digits, rounding at the second decimal). -/
def toFixed2 (q : ℚ) : String :=
  let n := (jsRound (q * 100)).natAbs
  (if jsRound (q * 100) < 0 then "-" else "")
    ++ toString (n / 100) ++ "." ++ jsPadStart (toString (n % 100)) 2 '0'

/-- Product record (`types/api.ts`); presentational fields (`description`,
`barcode`, `stock`, `status`) are omitted: no operation modelled in this
file reads them. -/
structure Product where
  id : String
  name : String
  price : ℚ
  vat_rate : ℚ
deriving DecidableEq, Repr

/-- Invoice line (`types/api.ts` `InvoiceItem`); `return_status` is the
string literal union `'none' | 'returned'`. -/
structure InvoiceItem where
  id : ℕ
  invoice_id : ℕ
  product_id : String
  product_name : String
  quantity : ℚ
  unit_price : ℚ
  vat_rate : ℚ
  line_total : ℚ
  return_status : String
deriving DecidableEq, Repr

/-- Invoice record (`types/api.ts` `Invoice`); `previous_hash` is optional
in the TypeScript declaration and the mock never assigns it.  The constant
`qr_image` sprite is omitted. -/
structure Invoice where
  id : ℕ
  invoice_number : String
  seller_id : String
  store_name : String
  subtotal : ℚ
  vat_amount : ℚ
  total : ℚ
  payment_method : String
  customer_email : Option String
  previous_hash : Option String
  current_hash : String
  qr_data : String
  status : String
  created_at : String
  items : List InvoiceItem
  currency_symbol : Option String
deriving DecidableEq, Repr

/-- The settings fields read by the modelled operations. -/
structure MockSettings where
  seller_id : String
  store_name : String
  currency_symbol : String
deriving DecidableEq, Repr

/-- Module-level mutable state of `mock.ts`: the product catalogue, the
appended invoices, the invoice counter and the settings. -/
structure MockState where
  products : List Product
  invoices : List Invoice
  invoiceCounter : ℕ
  settings : MockSettings
deriving DecidableEq, Repr

/-- The `{success, data?, error?}` envelope (`types/api.ts` `ApiResponse`). -/
structure ApiResp (α : Type) where
  success : Bool
  data : Option α
  error : Option String
deriving DecidableEq, Repr

/-- One requested cart line of `invoices_create`. -/
structure CreateLine where
  product_id : String
  quantity : ℚ
deriving DecidableEq, Repr

/-- The item-assembly loop of `invoices_create` (mock.ts lines 250-272):
resolves each product, computes the unrounded `line_total` and accumulates
the unrounded subtotal and VAT total; the first unknown product aborts the
whole assembly.  `n` is the running `invoiceItems.length + 1`. -/
def assembleItems (products : List Product) (invoiceId : ℕ) :
    List CreateLine → ℕ → ℚ → ℚ → Except String (List InvoiceItem × ℚ × ℚ)
  | [], _, sub, vat => Except.ok ([], sub, vat)
  | line :: rest, n, sub, vat =>
    match products.find? (fun p => p.id == line.product_id) with
    | Option.none => Except.error ("Product " ++ line.product_id ++ " not found")
    | Option.some p =>
      let lineTotal := p.price * line.quantity
      let vatAmount := lineTotal * (p.vat_rate / 100)
      match assembleItems products invoiceId rest (n + 1) (sub + lineTotal) (vat + vatAmount) with
      | Except.error e => Except.error e
      | Except.ok (its, s, v) =>
        Except.ok
          ({ id := n, invoice_id := invoiceId, product_id := p.id, product_name := p.name,
             quantity := line.quantity, unit_price := p.price, vat_rate := p.vat_rate,
             line_total := lineTotal, return_status := "none" } :: its, s, v)

/-- `invoices_create` (mock.ts lines 236-299).  The two clock reads
(`Date.now()` in milliseconds and `new Date().toISOString()`) are passed in
explicitly as `nowMs` and `isoNow`.  The counter is incremented before the
item loop, so a failed creation still bumps it, exactly as in the source. -/
def invoices_create (st : MockState) (items : List CreateLine) (paymentMethod : String)
    (customerEmail : Option String) (nowMs : ℕ) (isoNow : String) :
    ApiResp Invoice × MockState :=
  let counter := st.invoiceCounter + 1
  let invoiceNumber := "INV-2024-" ++ jsPadStart (toString counter) 4 '0'
  match assembleItems st.products counter items 1 0 0 with
  | Except.error e =>
      ({ success := false, data := Option.none, error := Option.some e },
       { st with invoiceCounter := counter })
  | Except.ok (its, subtotal, vatTotal) =>
      let total := subtotal + vatTotal
      let hash := "mock" ++ hexString nowMs
      let inv : Invoice :=
        { id := counter
          invoice_number := invoiceNumber
          seller_id := st.settings.seller_id
          store_name := st.settings.store_name
          subtotal := round2 subtotal
          vat_amount := round2 vatTotal
          total := round2 total
          payment_method := paymentMethod
          customer_email := customerEmail
          previous_hash := Option.none
          current_hash := hash
          qr_data := "OPENINVOICE|v1|" ++ invoiceNumber ++ "|" ++ toFixed2 total ++ "|"
                       ++ jsTake hash 8 ++ "|" ++ toString (nowMs / 1000)
          status := "completed"
          created_at := isoNow
          items := its
          currency_symbol := Option.some st.settings.currency_symbol }
      ({ success := true, data := Option.some inv, error := Option.none },
       { st with invoiceCounter := counter, invoices := st.invoices ++ [inv] })

/-- The mutation `invoices_process_return` applies to the found invoice
(mock.ts lines 320-329): mark every line whose id is requested as returned,
then set the status from the post-mutation lines. -/
def applyReturn (itemIds : List ℕ) (inv : Invoice) : Invoice :=
  let its := inv.items.map fun it =>
    if itemIds.contains it.id then { it with return_status := "returned" } else it
  { inv with
      items := its
      status := if its.all (fun i => i.return_status == "returned")
                then "returned" else "partial_return" }

/-- The refund accumulated by the same loop: the sum of `line_total` over
the lines whose id is requested. -/
def refundOf (itemIds : List ℕ) (inv : Invoice) : ℚ :=
  inv.items.foldl (fun acc it => if itemIds.contains it.id then acc + it.line_total else acc) 0

/-- In-place mutation of the first list element satisfying `p` (the object
returned by `Array.prototype.find` is mutated in the source). -/
def updateFirst (p : α → Bool) (f : α → α) : List α → List α
  | [] => []
  | x :: xs => if p x then f x :: xs else x :: updateFirst p f xs

/-- Return result payload of `invoices_process_return`. -/
structure ReturnResult where
  invoice_number : String
  refund_amount : ℚ
  new_status : String
deriving DecidableEq, Repr

/-- `invoices_process_return` (mock.ts lines 310-339). -/
def invoices_process_return (st : MockState) (invoiceNumber : String) (itemIds : List ℕ) :
    ApiResp ReturnResult × MockState :=
  match st.invoices.find? (fun i => i.invoice_number == invoiceNumber) with
  | Option.none =>
      ({ success := false, data := Option.none, error := Option.some "Invoice not found" }, st)
  | Option.some inv =>
      let inv' := applyReturn itemIds inv
      ({ success := true
         data := Option.some
           { invoice_number := invoiceNumber
             refund_amount := refundOf itemIds inv
             new_status := inv'.status }
         error := Option.none },
       { st with
           invoices := updateFirst (fun i => i.invoice_number == invoiceNumber)
                         (applyReturn itemIds) st.invoices })

/-- The five per-check flags of a validation verdict (`types/api.ts`). -/
structure QrChecks where
  format_valid : Option Bool
  invoice_exists : Option Bool
  hash_matches : Option Bool
  total_matches : Option Bool
  hash_verified : Option Bool
deriving DecidableEq, Repr

/-- Validation verdict (`types/api.ts` `ValidationResult`). -/
structure ValidationResult where
  valid : Bool
  invoice_number : Option String
  error_message : Option String
  invoice_data : Option Invoice
  checks : Option QrChecks
deriving DecidableEq, Repr

/-- `qr_validate` (mock.ts lines 342-379): reject unless the payload has
exactly 6 pipe-separated fields whose first field is the literal tag, look
the invoice up by the third field, and on success report every check as
passed without recomputing anything. -/
def qr_validate (st : MockState) (qrData : String) : ApiResp ValidationResult :=
  let parts := jsSplit qrData '|'
  if parts.length ≠ 6 ∨ parts[0]? ≠ Option.some "OPENINVOICE" then
    { success := false
      data := Option.some
        { valid := false, invoice_number := Option.none
          error_message := Option.some "Invalid QR code format"
          invoice_data := Option.none, checks := Option.none }
      error := Option.none }
  else
    let invoiceNumber := (parts[2]?).getD ""
    match st.invoices.find? (fun i => i.invoice_number == invoiceNumber) with
    | Option.none =>
        { success := false
          data := Option.some
            { valid := false, invoice_number := Option.some invoiceNumber
              error_message := Option.some "Invoice not found"
              invoice_data := Option.none, checks := Option.none }
          error := Option.none }
    | Option.some inv =>
        { success := true
          data := Option.some
            { valid := true, invoice_number := Option.some invoiceNumber
              error_message := Option.none
              invoice_data := Option.some inv
              checks := Option.some
                { format_valid := Option.some true, invoice_exists := Option.some true
                  hash_matches := Option.some true, total_matches := Option.some true
                  hash_verified := Option.some true } }
          error := Option.none }

/-- Chain verdict (`types/api.ts` `ChainVerification`). -/
structure ChainVerification where
  valid : Bool
  checked_count : ℕ
  error_message : Option String
  failed_invoice_id : Option ℕ
deriving DecidableEq, Repr

/-- `hash_chain_verify` (mock.ts lines 381-390): unconditionally reports a
valid chain whose `checked_count` is the number of stored invoices. -/
def hash_chain_verify (st : MockState) : ApiResp ChainVerification :=
  { success := true
    data := Option.some
      { valid := true, checked_count := st.invoices.length
        error_message := Option.none, failed_invoice_id := Option.none }
    error := Option.none }

/-- The six sample products of mock.ts (prices and VAT rates verbatim). -/
def sampleProducts : List Product :=
  [ { id := "PROD001", name := "Espresso", price := 5/2, vat_rate := 21 }
  , { id := "PROD002", name := "Cappuccino", price := 7/2, vat_rate := 21 }
  , { id := "PROD003", name := "Latte", price := 4, vat_rate := 21 }
  , { id := "PROD004", name := "Croissant", price := 2, vat_rate := 21 }
  , { id := "PROD005", name := "Muffin", price := 5/2, vat_rate := 21 }
  , { id := "PROD006", name := "Sandwich", price := 11/2, vat_rate := 21 } ]

/-- The one pre-seeded sample invoice of mock.ts. -/
def sampleInvoice : Invoice :=
  { id := 1
    invoice_number := "INV-2024-0001"
    seller_id := "SELLER001"
    store_name := "Demo Store"
    subtotal := 10
    vat_amount := 21/10
    total := 121/10
    payment_method := "cash"
    customer_email := Option.none
    previous_hash := Option.none
    current_hash := "a1b2c3d4e5f6g7h8"
    qr_data := "OPENINVOICE|v1|INV-2024-0001|12.10|a1b2c3d4|1706745600"
    status := "completed"
    created_at := "2024-01-31T10:30:00"
    items :=
      [ { id := 1, invoice_id := 1, product_id := "PROD001", product_name := "Espresso",
          quantity := 2, unit_price := 5/2, vat_rate := 21, line_total := 5,
          return_status := "none" }
      , { id := 2, invoice_id := 1, product_id := "PROD004", product_name := "Croissant",
          quantity := 2, unit_price := 2, vat_rate := 21, line_total := 4,
          return_status := "none" } ]
    currency_symbol := Option.none }

/-- The settings the mock starts with (fields used by the modelled code). -/
def demoSettings : MockSettings :=
  { seller_id := "SELLER001", store_name := "Demo Store", currency_symbol := "EUR" }

/-- The module-level state mock.ts starts with: six products, one sample
invoice, `invoiceCounter = sampleInvoices.length`. -/
def mockInitialState : MockState :=
  { products := sampleProducts
    invoices := [sampleInvoice]
    invoiceCounter := 1
    settings := demoSettings }

/-- An initial state over an empty ledger (no invoice appended yet). -/
def emptyLedgerState : MockState :=
  { products := sampleProducts
    invoices := []
    invoiceCounter := 0
    settings := demoSettings }

/-- Cart entry (`types/api.ts` `CartItem`). -/
structure CartItem where
  product : Product
  quantity : ℚ
deriving DecidableEq, Repr

/-- `addItem` of the cart store (cartStore.ts lines 27-46): the first entry
with the same product id has its quantity incremented; otherwise the item
is appended at the end. -/
def addItem (items : List CartItem) (product : Product) (quantity : ℚ) : List CartItem :=
  match items with
  | [] => [{ product := product, quantity := quantity }]
  | it :: rest =>
    if it.product.id == product.id then
      { it with quantity := it.quantity + quantity } :: rest
    else
      it :: addItem rest product quantity

/-- `removeItem` (cartStore.ts lines 48-52). -/
def removeItem (items : List CartItem) (productId : String) : List CartItem :=
  items.filter fun it => !(it.product.id == productId)

/-- `updateQuantity` (cartStore.ts lines 54-65): non-positive quantities
delegate to `removeItem`, otherwise the matching entries are re-priced. -/
def updateQuantity (items : List CartItem) (productId : String) (quantity : ℚ) : List CartItem :=
  if quantity ≤ 0 then removeItem items productId
  else items.map fun it =>
    if it.product.id == productId then { it with quantity := quantity } else it

/-- `clearCart` (cartStore.ts lines 67-69). -/
def clearCart (_items : List CartItem) : List CartItem := []

/-- The four cart-store actions. -/
inductive CartOp where
  | add : Product → ℚ → CartOp
  | remove : String → CartOp
  | update : String → ℚ → CartOp
  | clear : CartOp

/-- Interpreting one cart-store action on a cart state. -/
def applyCartOp (items : List CartItem) : CartOp → List CartItem
  | CartOp.add p q => addItem items p q
  | CartOp.remove pid => removeItem items pid
  | CartOp.update pid q => updateQuantity items pid q
  | CartOp.clear => clearCart items

/-- The product ids of a cart state, in entry order. -/
def cartIds (items : List CartItem) : List String := items.map fun it => it.product.id

/-! ### Numeric evaluation helpers -/

/-- Characterisation of `jsRound` at a concrete value. -/
theorem jsRound_eq (q : ℚ) (n : ℤ) (h1 : (n : ℚ) ≤ q + 1/2) (h2 : q + 1/2 < (n : ℚ) + 1) :
    jsRound q = n := by
  unfold jsRound
  exact Int.floor_eq_iff.mpr ⟨h1, h2⟩

/-- Characterisation of `round2` at a concrete value. -/
theorem round2_eq (q : ℚ) (n : ℤ) (h1 : (n : ℚ) ≤ q * 100 + 1/2)
    (h2 : q * 100 + 1/2 < (n : ℚ) + 1) : round2 q = (n : ℚ) / 100 := by
  unfold round2
  rw [jsRound_eq (q * 100) n h1 h2]

/-! ### Concrete fixtures used by the closed statements -/

/-- A fixed ISO timestamp string used as the `new Date().toISOString()`
reading in closed instances. -/
def demoIso : String := "2024-01-31T10:30:00"

/-- The cart of the spec scenario: two units of product `PROD001`
(price 2.50, VAT 21%). -/
def demoLines : List CreateLine := [{ product_id := "PROD001", quantity := 2 }]

/-- The initial mock store with a single byte of the persisted sample
invoice's `total` changed (12.1 tampered to 12.2). -/
def tamperedState : MockState :=
  { mockInitialState with invoices := [{ sampleInvoice with total := 122/10 }] }

/-- A store whose only product has the three-decimal price 0.005, so that
per-line rounding (if any) would be observable. -/
def tinyPriceState : MockState :=
  { products := [{ id := "PRODX", name := "Cheap", price := 1/200, vat_rate := 21 }]
    invoices := []
    invoiceCounter := 0
    settings := demoSettings }

/-- The store state after one successful return of line 1 of the sample
invoice. -/
def returnedOnceState : MockState :=
  (invoices_process_return mockInitialState "INV-2024-0001" [1]).2

/-- The invoice produced by the spec scenario (one line, qty 2, price 2.50,
VAT 21%, empty ledger), extracted from the response envelope. -/
def scenarioInvoice : Invoice :=
  ((invoices_create emptyLedgerState demoLines "cash" Option.none 0 demoIso).1.data).getD
    sampleInvoice

/-! ### C1 -/

/-- C1: the code's `hash_chain_verify` ignores the stored records entirely:
on a store whose single persisted invoice has a tampered `total` it still
reports `valid := true` with `checked_count` the full store length, and its
verdict never carries a failed invoice identifier — the claimed
tamper-detecting scan does not exist in the code. -/
theorem hash_chain_verify_ignores_tampering :
    ({ sampleInvoice with total := (122/10 : ℚ) }).total ≠ sampleInvoice.total
    ∧ (hash_chain_verify tamperedState).data =
        Option.some { valid := true, checked_count := 1,
                      error_message := Option.none, failed_invoice_id := Option.none }
    ∧ (hash_chain_verify mockInitialState).data =
        Option.some { valid := true, checked_count := 1,
                      error_message := Option.none, failed_invoice_id := Option.none } := by
  refine ⟨?_, rfl, rfl⟩
  show (122/10 : ℚ) ≠ sampleInvoice.total
  norm_num [sampleInvoice]

/-! ### C2 -/

/-- C2: the hash stored as `current_hash` is `"mock" ++ Date.now().toString(16)`:
two creations with identical field values (same store, lines, payment method
and timestamp string) but different clock readings produce different hashes,
while two creations with different lines and payment methods at the same
clock reading produce the same hash — the hash is a function of the clock
only, not of the claimed six fields. -/
theorem invoices_create_hash_depends_only_on_clock :
    ((invoices_create mockInitialState demoLines "cash" Option.none 0 demoIso).1.data.map
        (fun i => i.current_hash)) = Option.some "mock0"
    ∧ ((invoices_create mockInitialState demoLines "cash" Option.none 1 demoIso).1.data.map
        (fun i => i.current_hash)) = Option.some "mock1"
    ∧ ((invoices_create mockInitialState [{ product_id := "PROD004", quantity := 1 }] "card"
          Option.none 0 demoIso).1.data.map (fun i => i.current_hash)) = Option.some "mock0"
    ∧ ("mock0" : String) ≠ "mock1" :=
  ⟨rfl, rfl, rfl, by decide⟩

/-! ### C3 -/

/-- C3: an invoice created on an empty ledger carries no `previous_hash` at
all (the field is never assigned), not the sentinel `"GENESIS"`; no chain
linkage is established at creation. -/
theorem invoices_create_previous_hash_unset :
    ((invoices_create emptyLedgerState demoLines "cash" Option.none 0 demoIso).1.success = true)
    ∧ ((invoices_create emptyLedgerState demoLines "cash" Option.none 0 demoIso).1.data.map
        (fun i => i.previous_hash)) = Option.some Option.none
    ∧ ((invoices_create emptyLedgerState demoLines "cash" Option.none 0 demoIso).1.data.map
        (fun i => i.previous_hash)) ≠ Option.some (Option.some "GENESIS") := by
  refine ⟨rfl, rfl, ?_⟩
  intro h
  have h2 : ((invoices_create emptyLedgerState demoLines "cash" Option.none 0 demoIso).1.data.map
      (fun i => i.previous_hash)) = Option.some Option.none := rfl
  rw [h2] at h
  simp at h

/-! ### C4 -/

/-- C4: two successive `invoices_process_return` calls for the same line id
both succeed: the second overlapping call is not rejected with
`AlreadyReturned`; it reports the same 5.00 refund for the already-returned
line a second time. -/
theorem invoices_process_return_allows_double_return :
    (invoices_process_return mockInitialState "INV-2024-0001" [1]).1.success = true
    ∧ ((invoices_process_return mockInitialState "INV-2024-0001" [1]).1.data.map
        (fun r => r.refund_amount)) = Option.some 5
    ∧ (invoices_process_return returnedOnceState "INV-2024-0001" [1]).1.success = true
    ∧ (invoices_process_return returnedOnceState "INV-2024-0001" [1]).1.error = Option.none
    ∧ ((invoices_process_return returnedOnceState "INV-2024-0001" [1]).1.data.map
        (fun r => r.refund_amount)) = Option.some 5
    ∧ ((invoices_process_return returnedOnceState "INV-2024-0001" [1]).1.data.map
        (fun r => r.new_status)) = Option.some "partial_return" := by
  refine ⟨rfl, ?_, rfl, rfl, ?_, rfl⟩
  · simp [invoices_process_return, refundOf, mockInitialState, sampleInvoice]
  · simp [invoices_process_return, refundOf, returnedOnceState, applyReturn, updateFirst,
      mockInitialState, sampleInvoice]

/-! ### C7 -/

/-- C7: a `process_return` call whose requested ids match no line of an
untouched invoice still flips the invoice status from `completed` to
`partial_return` although every line keeps `return_status = "none"` —
invariant I3 (status derived from line return states) is broken by the
status recomputation, which lacks the no-line-returned case. -/
theorem invoices_process_return_noop_breaks_status_invariant :
    ((invoices_process_return mockInitialState "INV-2024-0001" []).1.data.map
        (fun x => x.new_status)) = Option.some "partial_return"
    ∧ ((invoices_process_return mockInitialState "INV-2024-0001" []).2.invoices.map
        (fun i => (i.status, i.items.map fun it => it.return_status)))
        = [("partial_return", ["none", "none"])]
    ∧ sampleInvoice.status = "completed" :=
  ⟨rfl, rfl, rfl⟩

/-! ### C5 -/

/-- C5 counterexample: a well-formed payload carrying version `v2` is not
rejected with `UnsupportedVersion`; it is parsed and, since the invoice
exists, validated successfully. -/
theorem qr_validate_v2_accepted :
    (qr_validate mockInitialState "OPENINVOICE|v2|INV-2024-0001|12.10|a1b2c3d4|1706745600").success
      = true
    ∧ ((qr_validate mockInitialState
          "OPENINVOICE|v2|INV-2024-0001|12.10|a1b2c3d4|1706745600").data.map
        (fun v => v.valid)) = Option.some true
    ∧ ((qr_validate mockInitialState
          "OPENINVOICE|v2|INV-2024-0001|12.10|a1b2c3d4|1706745600").data.map
        (fun v => v.error_message)) = Option.some Option.none :=
  ⟨rfl, rfl, rfl⟩

/-- C5 amended: `qr_validate` reports the format error exactly when the
payload does not have 6 pipe-separated fields with first field
`OPENINVOICE`; the version field is never inspected, so a well-formed `v2`
payload whose invoice exists is accepted as valid instead of yielding
`UnsupportedVersion`. -/
theorem qr_validate_accepts_any_version :
    (∀ (st : MockState) (qr : String),
        (((qr_validate st qr).data.map fun v => v.error_message)
            = Option.some (Option.some "Invalid QR code format"))
          ↔ ((jsSplit qr '|').length ≠ 6 ∨ (jsSplit qr '|')[0]? ≠ Option.some "OPENINVOICE"))
    ∧ (qr_validate mockInitialState
        "OPENINVOICE|v2|INV-2024-0001|12.10|a1b2c3d4|1706745600").success = true
    ∧ ((qr_validate mockInitialState
          "OPENINVOICE|v2|INV-2024-0001|12.10|a1b2c3d4|1706745600").data.map
        (fun v => v.valid)) = Option.some true := by
  refine ⟨?_, rfl, rfl⟩
  intro st qr
  unfold qr_validate
  by_cases h : (jsSplit qr '|').length ≠ 6 ∨ (jsSplit qr '|')[0]? ≠ Option.some "OPENINVOICE"
  · simp [h]
  · rw [if_neg h]
    cases hf : st.invoices.find?
        (fun i => i.invoice_number == ((jsSplit qr '|')[2]?).getD "") with
    | none => simp [hf, h]
    | some inv => simp [hf, h]

/-- C5 witness: the amended format criterion applied to a concrete
malformed payload. -/
theorem qr_validate_accepts_any_version_witness :
    ((qr_validate mockInitialState "BAD").data.map fun v => v.error_message)
      = Option.some (Option.some "Invalid QR code format") :=
  (qr_validate_accepts_any_version.1 mockInitialState "BAD").mpr (by decide)

/-! ### C6 -/

/-- C6: `qr_validate` reports `hash_matches` and `total_matches` as passed
without recomputing or comparing anything: a payload whose total field
(99.99) and hash prefix (`deadbeef`) both disagree with the stored record
(total 12.1, hash prefix `a1b2c3d4`) is still reported fully valid with
every check true. -/
theorem qr_validate_reports_passing_checks_without_verification :
    (qr_validate mockInitialState "OPENINVOICE|v1|INV-2024-0001|99.99|deadbeef|0").success = true
    ∧ ((qr_validate mockInitialState "OPENINVOICE|v1|INV-2024-0001|99.99|deadbeef|0").data.map
        (fun v => v.valid)) = Option.some true
    ∧ ((qr_validate mockInitialState "OPENINVOICE|v1|INV-2024-0001|99.99|deadbeef|0").data.bind
        (fun v => v.checks)) = Option.some
          { format_valid := Option.some true, invoice_exists := Option.some true
            hash_matches := Option.some true, total_matches := Option.some true
            hash_verified := Option.some true }
    ∧ sampleInvoice.total = 121/10
    ∧ ((121 : ℚ)/10 ≠ 9999/100)
    ∧ jsTake sampleInvoice.current_hash 8 = "a1b2c3d4"
    ∧ ("a1b2c3d4" : String) ≠ "deadbeef" := by
  refine ⟨rfl, rfl, rfl, rfl, by norm_num, by decide, by decide⟩

/-! ### C8 -/

/-- What `invoices_create` actually does with rounding: per-line totals are
stored unrounded (`line_total = unit_price * quantity`), and only the three
aggregates are rounded, each over the unrounded per-line values. -/
def createRounding (inv : Invoice) : Prop :=
  inv.status = "completed"
  ∧ (inv.items.map fun it => it.line_total) = (inv.items.map fun it => it.unit_price * it.quantity)
  ∧ inv.subtotal = round2 ((inv.items.map fun it => it.line_total).sum)
  ∧ inv.vat_amount = round2 ((inv.items.map fun it => it.line_total * (it.vat_rate / 100)).sum)
  ∧ inv.total = round2 (((inv.items.map fun it => it.line_total).sum)
      + ((inv.items.map fun it => it.line_total * (it.vat_rate / 100)).sum))

/-- The assembly loop returns the items with unrounded line totals and the
two accumulators extended by the corresponding sums. -/
theorem assembleItems_ok (lines : List CreateLine) :
    ∀ (ps : List Product) (invId n : ℕ) (s v : ℚ)
      (its : List InvoiceItem) (sub vat : ℚ),
      assembleItems ps invId lines n s v = Except.ok (its, sub, vat) →
      (its.map fun it => it.line_total) = (its.map fun it => it.unit_price * it.quantity)
      ∧ sub = s + ((its.map fun it => it.line_total).sum)
      ∧ vat = v + ((its.map fun it => it.line_total * (it.vat_rate / 100)).sum) := by
  induction lines with
  | nil =>
    intro ps invId n s v its sub vat h
    unfold assembleItems at h
    simp only [Except.ok.injEq, Prod.mk.injEq] at h
    obtain ⟨h1, h2, h3⟩ := h
    subst h1; subst h2; subst h3
    simp
  | cons line rest ih =>
    intro ps invId n s v its sub vat h
    unfold assembleItems at h
    cases hp : ps.find? (fun p => p.id == line.product_id) with
    | none => rw [hp] at h; cases h
    | some p =>
      rw [hp] at h
      simp only at h
      cases hr : assembleItems ps invId rest (n + 1) (s + p.price * line.quantity)
          (v + p.price * line.quantity * (p.vat_rate / 100)) with
      | error e => rw [hr] at h; cases h
      | ok t =>
        obtain ⟨its', s', v'⟩ := t
        rw [hr] at h
        simp only [Except.ok.injEq, Prod.mk.injEq] at h
        obtain ⟨h1, h2, h3⟩ := h
        subst h1; subst h2; subst h3
        obtain ⟨m1, m2, m3⟩ := ih ps invId (n + 1) (s + p.price * line.quantity)
          (v + p.price * line.quantity * (p.vat_rate / 100)) its' s' v' hr
        refine ⟨?_, ?_, ?_⟩
        · simp only [List.map_cons, m1]
        · rw [m2]; simp only [List.map_cons, List.sum_cons]; ring
        · rw [m3]; simp only [List.map_cons, List.sum_cons]; ring

/-- C8 counterexample: with a product priced 0.005, the stored `line_total`
of the created invoice is 0.005 while `round2(quantity * unit_price)` is
0.01 — line totals are not rounded per line as claimed. -/
theorem invoices_create_line_total_not_rounded :
    ((invoices_create tinyPriceState [{ product_id := "PRODX", quantity := 1 }] "cash"
        Option.none 0 demoIso).1.data.map
      (fun i => i.items.map fun it => (it.line_total, round2 (it.quantity * it.unit_price))))
      = Option.some [((1 : ℚ)/200, 1/100)]
    ∧ ((1 : ℚ)/200 ≠ 1/100) := by
  constructor
  · show Option.some [((1 : ℚ)/200 * 1, round2 (1 * ((1 : ℚ)/200)))] = Option.some [((1 : ℚ)/200, 1/100)]
    have h1 : ((1 : ℚ)/200 * 1) = 1/200 := by norm_num
    have h2 : round2 (1 * ((1 : ℚ)/200)) = 1/100 := by
      rw [show (1 * ((1 : ℚ)/200)) = 1/200 by norm_num,
        round2_eq (1/200) 1 (by norm_num) (by norm_num)]
      norm_num
    rw [h1, h2]
  · norm_num

/-- C8 amended: for every successful creation, line totals are stored
unrounded and only `subtotal`, `vat_amount` and `total` are rounded
(half-up, 2 decimals) on the aggregated unrounded values — so `total` is
`round2` of the raw sum, not necessarily `subtotal + vat_amount`; the spec
scenario (qty 2, price 2.50, VAT 21%, empty ledger) does yield
subtotal 5.00, vat 1.05, total 6.05 and status `completed`. -/
theorem invoices_create_rounds_aggregates_only :
    (∀ (st : MockState) (lines : List CreateLine) (pm : String) (em : Option String)
        (ms : ℕ) (iso : String) (inv : Invoice),
        (invoices_create st lines pm em ms iso).1.data = Option.some inv → createRounding inv)
    ∧ ((invoices_create emptyLedgerState demoLines "cash" Option.none 0 demoIso).1.data.map
        (fun i => (i.subtotal, i.vat_amount, i.total, i.status)))
        = Option.some (5, 21/20, 121/20, "completed") := by
  constructor
  · intro st lines pm em ms iso inv h
    unfold invoices_create at h
    simp only at h
    cases hA : assembleItems st.products (st.invoiceCounter + 1) lines 1 0 0 with
    | error e => rw [hA] at h; cases h
    | ok t =>
      obtain ⟨its, sub, vat⟩ := t
      rw [hA] at h
      simp only [Option.some.injEq] at h
      subst h
      obtain ⟨m1, m2, m3⟩ := assembleItems_ok lines st.products (st.invoiceCounter + 1) 1 0 0
        its sub vat hA
      rw [zero_add] at m2 m3
      exact ⟨rfl, m1, by rw [m2], by rw [m3], by rw [m2, m3]⟩
  · show Option.some
        (round2 ((0 : ℚ) + 5/2 * 2), round2 ((0 : ℚ) + 5/2 * 2 * (21/100)),
         round2 (((0 : ℚ) + 5/2 * 2) + ((0 : ℚ) + 5/2 * 2 * (21/100))), "completed")
      = Option.some (5, 21/20, 121/20, "completed")
    have h1 : round2 ((0 : ℚ) + 5/2 * 2) = 5 := by
      rw [show ((0 : ℚ) + 5/2 * 2) = 5 by norm_num,
        round2_eq 5 500 (by norm_num) (by norm_num)]
      norm_num
    have h2 : round2 ((0 : ℚ) + 5/2 * 2 * (21/100)) = 21/20 := by
      rw [show ((0 : ℚ) + 5/2 * 2 * (21/100)) = 21/20 by norm_num,
        round2_eq (21/20) 105 (by norm_num) (by norm_num)]
      norm_num
    have h3 : round2 (((0 : ℚ) + 5/2 * 2) + ((0 : ℚ) + 5/2 * 2 * (21/100))) = 121/20 := by
      rw [show (((0 : ℚ) + 5/2 * 2) + ((0 : ℚ) + 5/2 * 2 * (21/100))) = 121/20 by norm_num,
        round2_eq (121/20) 605 (by norm_num) (by norm_num)]
      norm_num
    rw [h1, h2, h3]

/-- C8 witness: the general rounding description instantiated at the spec
scenario's concrete creation. -/
theorem invoices_create_rounds_aggregates_only_witness : createRounding scenarioInvoice :=
  invoices_create_rounds_aggregates_only.1 emptyLedgerState demoLines "cash" Option.none 0
    demoIso scenarioInvoice rfl

/-! ### C9 -/

/-- Per-line frame relation of a return call: every field of the line is
preserved, and `return_status` is preserved whenever the line's id was not
among the requested ids. -/
def itemFrame (ids : List ℕ) (a b : InvoiceItem) : Prop :=
  b.id = a.id ∧ b.invoice_id = a.invoice_id ∧ b.product_id = a.product_id
  ∧ b.product_name = a.product_name ∧ b.quantity = a.quantity
  ∧ b.unit_price = a.unit_price ∧ b.vat_rate = a.vat_rate ∧ b.line_total = a.line_total
  ∧ (ids.contains a.id = false → b.return_status = a.return_status)

/-- Per-invoice frame relation of a return call: every field except
`status` is preserved, with the lines related pairwise by `itemFrame` (in
particular `previous_hash` and `current_hash` are untouched). -/
def invFrame (ids : List ℕ) (a b : Invoice) : Prop :=
  b.id = a.id ∧ b.invoice_number = a.invoice_number ∧ b.seller_id = a.seller_id
  ∧ b.store_name = a.store_name ∧ b.subtotal = a.subtotal ∧ b.vat_amount = a.vat_amount
  ∧ b.total = a.total ∧ b.payment_method = a.payment_method
  ∧ b.customer_email = a.customer_email ∧ b.previous_hash = a.previous_hash
  ∧ b.current_hash = a.current_hash ∧ b.qr_data = a.qr_data
  ∧ b.created_at = a.created_at ∧ b.currency_symbol = a.currency_symbol
  ∧ List.Forall₂ (itemFrame ids) a.items b.items

/-- Every invoice is frame-related to itself. -/
theorem invFrame_refl (ids : List ℕ) (a : Invoice) : invFrame ids a a := by
  refine ⟨rfl, rfl, rfl, rfl, rfl, rfl, rfl, rfl, rfl, rfl, rfl, rfl, rfl, rfl, ?_⟩
  induction a.items with
  | nil => exact List.Forall₂.nil
  | cons it rest ih =>
    exact List.Forall₂.cons ⟨rfl, rfl, rfl, rfl, rfl, rfl, rfl, rfl, fun _ => rfl⟩ ih

/-- The return mutation is frame-respecting on the invoice it touches. -/
theorem invFrame_applyReturn (ids : List ℕ) (a : Invoice) :
    invFrame ids a (applyReturn ids a) := by
  refine ⟨rfl, rfl, rfl, rfl, rfl, rfl, rfl, rfl, rfl, rfl, rfl, rfl, rfl, rfl, ?_⟩
  show List.Forall₂ (itemFrame ids) a.items (a.items.map fun it =>
    if ids.contains it.id then { it with return_status := "returned" } else it)
  induction a.items with
  | nil => exact List.Forall₂.nil
  | cons it rest ih =>
    refine List.Forall₂.cons ?_ ih
    by_cases hid : ids.contains it.id
    · simp only [hid, if_pos]
      exact ⟨rfl, rfl, rfl, rfl, rfl, rfl, rfl, rfl, fun hc => by rw [hid] at hc; cases hc⟩
    · simp only [hid, if_neg]
      exact ⟨rfl, rfl, rfl, rfl, rfl, rfl, rfl, rfl, fun _ => rfl⟩

/-- Mutating the first match in place relates the old and new lists
pairwise, given reflexivity and the mutation's frame property. -/
theorem updateFirst_forall₂ {α : Type} (R : α → α → Prop) (p : α → Bool) (f : α → α)
    (hrefl : ∀ a, R a a) (hstep : ∀ a, R a (f a)) :
    ∀ l : List α, List.Forall₂ R l (updateFirst p f l) := by
  intro l
  induction l with
  | nil => exact List.Forall₂.nil
  | cons x xs ih =>
    unfold updateFirst
    by_cases hx : p x
    · rw [if_pos hx]
      exact List.Forall₂.cons (hstep x) (List.forall₂_same.mpr fun a _ => hrefl a)
    · rw [if_neg hx]
      exact List.Forall₂.cons (hrefl x) ih

/-- C9: a return call (successful or not) changes nothing outside the
requested lines' `return_status` and the invoice `status`: products,
counter and settings are untouched, and every stored invoice is pairwise
frame-related to its post-call version — in particular `current_hash` and
`previous_hash` never change. -/
theorem invoices_process_return_frame (st : MockState) (n : String) (ids : List ℕ) :
    ((invoices_process_return st n ids).2.products = st.products)
    ∧ ((invoices_process_return st n ids).2.invoiceCounter = st.invoiceCounter)
    ∧ ((invoices_process_return st n ids).2.settings = st.settings)
    ∧ List.Forall₂ (invFrame ids) st.invoices (invoices_process_return st n ids).2.invoices := by
  unfold invoices_process_return
  cases hf : st.invoices.find? (fun i => i.invoice_number == n) with
  | none =>
    exact ⟨rfl, rfl, rfl, List.forall₂_same.mpr fun a _ => invFrame_refl ids a⟩
  | some inv =>
    refine ⟨rfl, rfl, rfl, ?_⟩
    exact updateFirst_forall₂ (invFrame ids) (fun i => i.invoice_number == n)
      (applyReturn ids) (invFrame_refl ids) (invFrame_applyReturn ids) st.invoices

/-- C9 witness: the frame property at a concrete return call on the sample
store. -/
theorem invoices_process_return_frame_witness :
    ((invoices_process_return mockInitialState "INV-2024-0001" [1]).2.products
        = mockInitialState.products)
    ∧ ((invoices_process_return mockInitialState "INV-2024-0001" [1]).2.invoiceCounter
        = mockInitialState.invoiceCounter)
    ∧ ((invoices_process_return mockInitialState "INV-2024-0001" [1]).2.settings
        = mockInitialState.settings)
    ∧ List.Forall₂ (invFrame [1]) mockInitialState.invoices
        (invoices_process_return mockInitialState "INV-2024-0001" [1]).2.invoices :=
  invoices_process_return_frame mockInitialState "INV-2024-0001" [1]

/-! ### C10 -/

/-- `addItem` either leaves the id list unchanged (the product was already
in the cart: its first entry is bumped) or appends the new id at the end. -/
theorem addItem_cartIds (items : List CartItem) (p : Product) (q : ℚ) :
    cartIds (addItem items p q)
      = if p.id ∈ cartIds items then cartIds items else cartIds items ++ [p.id] := by
  induction items with
  | nil => simp [addItem, cartIds]
  | cons it rest ih =>
    unfold addItem
    by_cases h : it.product.id == p.id
    · rw [if_pos h]
      have he : it.product.id = p.id := by simpa using h
      simp [cartIds, he]
    · rw [if_neg h]
      have he : ¬(p.id = it.product.id) := by
        intro hh
        exact h (by simp [hh])
      show it.product.id :: cartIds (addItem rest p q) = _
      rw [ih]
      have hc : cartIds (it :: rest) = it.product.id :: cartIds rest := rfl
      by_cases hm : p.id ∈ cartIds rest
      · rw [if_pos hm, if_pos (by rw [hc]; exact List.mem_cons_of_mem _ hm)]
        rfl
      · rw [if_neg hm, if_neg ?_]
        · rfl
        · rw [hc]
          intro hmem
          rcases List.mem_cons.mp hmem with h1 | h2
          · exact he h1
          · exact hm h2

/-- Ids of a cart after `removeItem` form a sublist of the ids before. -/
theorem removeItem_cartIds_sublist (items : List CartItem) (pid : String) :
    List.Sublist (cartIds (removeItem items pid)) (cartIds items) := by
  unfold cartIds removeItem
  exact List.Sublist.map _ (List.filter_sublist items)

/-- `updateQuantity` with a positive quantity keeps the id list unchanged. -/
theorem updateQuantity_cartIds (items : List CartItem) (pid : String) (q : ℚ)
    (hq : ¬(q ≤ 0)) : cartIds (updateQuantity items pid q) = cartIds items := by
  unfold updateQuantity
  rw [if_neg hq]
  unfold cartIds
  rw [List.map_map]
  congr 1
  funext it
  by_cases h : it.product.id == pid
  · simp [Function.comp, h]
  · simp [Function.comp, h]

/-- Every single cart-store action preserves distinctness of product ids. -/
theorem applyCartOp_nodup (items : List CartItem) (op : CartOp)
    (h : (cartIds items).Nodup) : (cartIds (applyCartOp items op)).Nodup := by
  cases op with
  | add p q =>
    show (cartIds (addItem items p q)).Nodup
    rw [addItem_cartIds]
    by_cases hm : p.id ∈ cartIds items
    · rw [if_pos hm]; exact h
    · rw [if_neg hm]
      simp [List.nodup_append, h, hm]
  | remove pid => exact (removeItem_cartIds_sublist items pid).nodup h
  | update pid q =>
    show (cartIds (updateQuantity items pid q)).Nodup
    by_cases hq : q ≤ 0
    · unfold updateQuantity
      rw [if_pos hq]
      exact (removeItem_cartIds_sublist items pid).nodup h
    · rw [updateQuantity_cartIds items pid q hq]; exact h
  | clear => simp [applyCartOp, clearCart, cartIds]

/-- Distinctness of ids is preserved along any action sequence. -/
theorem foldl_cartOps_nodup (ops : List CartOp) :
    ∀ items : List CartItem, (cartIds items).Nodup →
      (cartIds (List.foldl applyCartOp items ops)).Nodup := by
  induction ops with
  | nil => intro items h; exact h
  | cons op rest ih =>
    intro items h
    exact ih (applyCartOp items op) (applyCartOp_nodup items op h)

/-- C10: every cart state reachable from the empty cart through the store's
actions has pairwise-distinct product ids, and `addItem` on a product that
is already in the cart merges into the existing entry (the id list is
unchanged) instead of appending a duplicate (the id is appended only when
absent). -/
theorem cartStore_product_ids_nodup :
    (∀ ops : List CartOp, (cartIds (List.foldl applyCartOp [] ops)).Nodup)
    ∧ (∀ (items : List CartItem) (p : Product) (q : ℚ),
        cartIds (addItem items p q)
          = if p.id ∈ cartIds items then cartIds items else cartIds items ++ [p.id]) :=
  ⟨fun ops => foldl_cartOps_nodup ops [] (by simp [cartIds]), addItem_cartIds⟩
